import Mathlib

/-!
Shallow embedding of `src/Telegram/SourceFiles/boxes/peers/edit_contact_box.cpp`:
the contact-edit dialog (two name fields, optional share-phone checkbox, one
add-contact request). Field texts are Lean `String`s; the asynchronous request
and its completion handlers are modelled as pure functions producing explicit
effect records; the weak box pointer is modelled by a liveness boolean.
-/

namespace EditContact

/-- Modelled from the spec: the whitespace characters removed by trimming
(the toolkit string library, `QString::trimmed`, is outside this repository). -/
def isSpaceChar (c : Char) : Bool :=
  c = ' ' || c = '\t' || c = '\n' || c = '\r'

/-- Modelled from the spec: `QString::trimmed` removes leading and trailing
whitespace (toolkit code, outside this repository). -/
def trimmed (s : String) : String :=
  String.mk (((s.data.dropWhile isSpaceChar).reverse.dropWhile isSpaceChar).reverse)

/-- Modelled from the spec: `TextUtilities::SingleLine`, the single-line
normalization, replaces line breaks by spaces (text utilities are outside
this repository). -/
def SingleLine (s : String) : String :=
  String.mk (s.data.map (fun c => if c = '\n' || c = '\r' then ' ' else c))

/-- `QString::isEmpty`: the string has no characters. -/
def isEmptyQ (s : String) : Bool :=
  s.data.isEmpty

/-- From `Controller::initNameFields`: the `getValue` lambda reads a field as
`TextUtilities::SingleLine(field->getLastText()).trimmed()`. -/
def getValue (text : String) : String :=
  trimmed (SingleLine text)

/-- The two name input fields of the form. -/
inductive NameField
  | first
  | last
deriving DecidableEq, BEq

/-- From `Controller::setupNameFields`: with `inverted` layout the last-name
field is inserted above the first-name field, so it comes first visually. -/
def visuallyFirst (inverted : Bool) : NameField :=
  if inverted then NameField.last else NameField.first

/-- The field shown second when the layout is (not) inverted. -/
def visuallySecond (inverted : Bool) : NameField :=
  if inverted then NameField.first else NameField.last

/-- The other one of the two name fields. -/
def otherField : NameField → NameField
  | NameField.first => NameField.last
  | NameField.last => NameField.first

/-- The dialog state the handlers close over: the inversion flag, the two
field texts, the optional share-phone checkbox (`none` when it was never
created, `some checked` otherwise) and the phone resolved at construction. -/
structure FormState where
  inverted : Bool
  firstText : String
  lastText : String
  sharePhone : Option Bool
  phone : String
deriving DecidableEq

/-- From `Controller::initNameFields` (`_focus`): read both values, compute
`empty`, and focus `first` exactly when `inverted != empty`, else `last`. -/
def focusTarget (inverted : Bool) (firstText lastText : String) : NameField :=
  let firstValue := getValue firstText
  let lastValue := getValue lastText
  let empty := isEmptyQ firstValue && isEmptyQ lastValue
  if inverted != empty then NameField.first else NameField.last

/-- The data carried by the `MTPcontacts_AddContact` request built in
`Controller::sendRequest`. -/
structure AddContactRequest where
  addPhonePrivacyException : Bool
  firstName : String
  lastName : String
  phone : String
deriving DecidableEq

/-- From `Controller::sendRequest`: the request carries the
`f_add_phone_privacy_exception` flag iff `_sharePhone && _sharePhone->checked()`,
then the two name strings and the cached phone. -/
def buildRequest (st : FormState) (first last : String) : AddContactRequest :=
  { addPhonePrivacyException :=
      match st.sharePhone with
      | some checked => checked
      | none => false
    firstName := first
    lastName := last
    phone := st.phone }

/-- What one invocation of the save action does: the requests it issues, the
field it focuses (via `_focus`) and the field it marks with `showError`. -/
structure SaveOutcome where
  requests : List AddContactRequest
  focused : Option NameField
  errorField : Option NameField
deriving DecidableEq

/-- From `Controller::initNameFields` (`_save`): read both values through
`getValue`; if both are empty, re-run `_focus`, call `showError` on
`(inverted ? last : first)` and return without a request; otherwise call
`sendRequest(firstValue, lastValue)`. -/
def save (st : FormState) : SaveOutcome :=
  let firstValue := getValue st.firstText
  let lastValue := getValue st.lastText
  let empty := isEmptyQ firstValue && isEmptyQ lastValue
  if empty then
    { requests := []
      focused := some (focusTarget st.inverted st.firstText st.lastText)
      errorField := some (if st.inverted then NameField.last else NameField.first) }
  else
    { requests := [buildRequest st firstValue lastValue]
      focused := none
      errorField := none }

/-- What the submit-key handler does: move focus or call `_save`. -/
inductive SubmitAction
  | setFocus (f : NameField)
  | callSave
deriving DecidableEq

/-- From `Controller::initNameFields` (`submit`): note this lambda trims the
raw texts but does not single-line normalize them. `focus` is the field the
submit key was pressed in (the field with keyboard focus). -/
def submitKey (st : FormState) (focus : NameField) : SubmitAction :=
  let firstValue := trimmed st.firstText
  let lastValue := trimmed st.lastText
  let empty := isEmptyQ firstValue && isEmptyQ lastValue
  if (if st.inverted then focus == NameField.last else empty) then
    SubmitAction.setFocus NameField.first
  else if (if st.inverted then empty else focus == NameField.first) then
    SubmitAction.setFocus NameField.last
  else
    SubmitAction.callSave

/-- The local contact record, as far as this dialog touches it: name fields
and the peer-settings bitmask (`none` when the user has no settings). -/
structure UserData where
  firstName : String
  lastName : String
  nameOrPhone : String
  username : String
  isContact : Bool
  settings : Option Nat
deriving DecidableEq

/-- Modelled from the spec: bit value of `MTPDpeerSettings::Flag::f_report_spam`
(the scheme-generated flag constants are outside this repository). -/
def f_report_spam : Nat := 1

/-- Modelled from the spec: bit value of `MTPDpeerSettings::Flag::f_add_contact`. -/
def f_add_contact : Nat := 2

/-- Modelled from the spec: bit value of `MTPDpeerSettings::Flag::f_block_contact`. -/
def f_block_contact : Nat := 4

/-- Modelled from the spec: bit value of
`MTPDpeerSettings::Flag::f_need_contacts_exception`. -/
def f_need_contacts_exception : Nat := 16

/-- From `Controller::sendRequest` (done handler): the three flags cleared
from the settings, `f_add_contact | f_block_contact | f_report_spam`. -/
def clearedFlags : Nat := f_add_contact ||| f_block_contact ||| f_report_spam

/-- Modelled from the spec: `UserData::setName` updates the local contact's
name fields (`data/data_user.cpp` is outside this repository). -/
def setName (u : UserData) (first last nameOrPhone username : String) : UserData :=
  { u with
    firstName := first
    lastName := last
    nameOrPhone := nameOrPhone
    username := username }

/-- The observable effects of one completion handler: the contact record
afterwards, whether `applyUpdates` ran, whether the box was closed, and the
toast substitution parameters shown. -/
structure ResponseEffects where
  user : UserData
  appliedUpdates : Bool
  closedBox : Bool
  toasts : List String
deriving DecidableEq

/-- Outcome of the add-contact remote call. -/
inductive Response
  | success
  | failure
deriving DecidableEq

/-- From `Controller::sendRequest`: the `.done` handler sets the name (keeping
`nameOrPhone` and `username`), applies the updates, clears `clearedFlags` from
the settings when they exist, closes the box only when the weak pointer is
still alive (`boxAlive`), and shows the toast carrying `first` only when the
user was not a contact when the request was sent; the `.fail` handler has an
empty body. `u` is the contact as of the moment the request was sent. -/
def handleResponse (u : UserData) (boxAlive : Bool) (first last : String) :
    Response → ResponseEffects
  | Response.success =>
    let wasContact := u.isContact
    let u1 := setName u first last u.nameOrPhone u.username
    let u2 :=
      match u1.settings with
      | some s => { u1 with settings := some (Nat.ldiff s clearedFlags) }
      | none => u1
    { user := u2
      appliedUpdates := true
      closedBox := boxAlive
      toasts := if wasContact then [] else [first] }
  | Response.failure =>
    { user := u
      appliedUpdates := false
      closedBox := false
      toasts := [] }

/-- Which of the share-phone widgets `setupSharePhoneNumber` added, and the
checkbox's initial checked state. -/
structure SharePhoneSetup where
  checkboxAdded : Bool
  labelAdded : Bool
  checkboxDefaultChecked : Bool
deriving DecidableEq

/-- From `Controller::setupSharePhoneNumber`: return without adding anything
unless the settings exist and have `f_need_contacts_exception`; otherwise add
the checkbox (checked by default) and the explanatory label. -/
def setupSharePhoneNumber (u : UserData) : SharePhoneSetup :=
  match u.settings with
  | none =>
    { checkboxAdded := false, labelAdded := false, checkboxDefaultChecked := false }
  | some s =>
    if s &&& f_need_contacts_exception = 0 then
      { checkboxAdded := false, labelAdded := false, checkboxDefaultChecked := false }
    else
      { checkboxAdded := true, labelAdded := true, checkboxDefaultChecked := true }

/-- A form state with both fields blank (whitespace only), used as witness input. -/
def stEmpty : FormState :=
  { inverted := true, firstText := " \n ", lastText := "\t", sharePhone := none, phone := "" }

/-- A form state with a non-empty first name, used as witness input. -/
def stAnn : FormState :=
  { inverted := false, firstText := " Ann ", lastText := "", sharePhone := some true,
    phone := "+100" }

/-- A contact that is not yet a contact, with settings bits 0,1,2,4 set. -/
def uAnn : UserData :=
  { firstName := "A", lastName := "B", nameOrPhone := "A", username := "ann",
    isContact := false, settings := some 23 }

/-- C1 counterexample: with normal order and both fields empty, `_save` marks the
first-in-visual-order field (the first-name field) erroneous, not the
later-in-visual-order one as the claim states. -/
theorem C1_counterexample :
    isEmptyQ (getValue "") = true ∧
    (save { inverted := false, firstText := "", lastText := "",
            sharePhone := none, phone := "" }).errorField
      ≠ some (visuallySecond false) := by
  decide

/-- C1 (amended): for every pair of field values that are both empty after
single-line normalization and trimming, the save action issues no request,
re-runs `focusDefault`, and marks the FIRST-in-visual-order field erroneous
(the same field `focusDefault` focuses). -/
theorem C1_save_rejects_when_both_empty (st : FormState)
    (h1 : isEmptyQ (getValue st.firstText) = true)
    (h2 : isEmptyQ (getValue st.lastText) = true) :
    (save st).requests = [] ∧
    (save st).focused = some (focusTarget st.inverted st.firstText st.lastText) ∧
    (save st).errorField = some (visuallyFirst st.inverted) := by
  cases hinv : st.inverted <;> simp [save, h1, h2, visuallyFirst, hinv]

/-- C1 witness: the amended theorem applied to a concrete all-blank state. -/
theorem C1_witness :
    (save stEmpty).requests = [] ∧
    (save stEmpty).focused = some (focusTarget stEmpty.inverted stEmpty.firstText stEmpty.lastText) ∧
    (save stEmpty).errorField = some (visuallyFirst stEmpty.inverted) :=
  C1_save_rejects_when_both_empty stEmpty (by decide) (by decide)

/-- C2: for every pair of field values with at least one non-empty after
single-line normalization and trimming, the save action issues exactly one
add-contact request, carrying exactly the two normalized trimmed values. -/
theorem C2_save_sends_one_request (st : FormState)
    (h : isEmptyQ (getValue st.firstText) = false ∨ isEmptyQ (getValue st.lastText) = false) :
    (save st).requests = [buildRequest st (getValue st.firstText) (getValue st.lastText)] ∧
    (buildRequest st (getValue st.firstText) (getValue st.lastText)).firstName
      = getValue st.firstText ∧
    (buildRequest st (getValue st.firstText) (getValue st.lastText)).lastName
      = getValue st.lastText := by
  rcases h with h | h <;> simp [save, h, buildRequest]

/-- C2 witness: the theorem applied to a concrete state with a first name. -/
theorem C2_witness :
    (save stAnn).requests = [buildRequest stAnn (getValue stAnn.firstText) (getValue stAnn.lastText)] ∧
    (buildRequest stAnn (getValue stAnn.firstText) (getValue stAnn.lastText)).firstName
      = getValue stAnn.firstText ∧
    (buildRequest stAnn (getValue stAnn.firstText) (getValue stAnn.lastText)).lastName
      = getValue stAnn.lastText :=
  C2_save_sends_one_request stAnn (Or.inl (by decide))

/-- C3 counterexample: with normal order, both fields filled and the submit key
pressed in the (visually first) first-name field, the handler moves focus to
the last-name field instead of triggering the save action, contradicting the
claim that filled fields always trigger save. -/
theorem C3_counterexample :
    isEmptyQ (trimmed "Ann") = false ∧ isEmptyQ (trimmed "Lee") = false ∧
    submitKey { inverted := false, firstText := "Ann", lastText := "Lee",
                sharePhone := none, phone := "" } NameField.first
      ≠ SubmitAction.callSave := by
  decide

/-- C3 (amended): the submit key triggers the save action exactly when the
visually-second field has focus and the two trimmed values are not both empty;
otherwise it moves focus: with inverted order always to the other field, with
normal order to the last field when the first has focus and some value is
non-empty, and to the first field in the remaining cases. -/
theorem C3_submit_characterization (st : FormState) (focus : NameField) :
    submitKey st focus =
      (if focus = visuallySecond st.inverted
          ∧ (isEmptyQ (trimmed st.firstText) && isEmptyQ (trimmed st.lastText)) = false then
        SubmitAction.callSave
      else if st.inverted then
        SubmitAction.setFocus (otherField focus)
      else if isEmptyQ (trimmed st.firstText) && isEmptyQ (trimmed st.lastText) then
        SubmitAction.setFocus NameField.first
      else
        SubmitAction.setFocus NameField.last) := by
  cases hinv : st.inverted <;> cases focus <;>
    cases he : isEmptyQ (trimmed st.firstText) && isEmptyQ (trimmed st.lastText) <;>
      simp [submitKey, visuallySecond, otherField, hinv, he] <;> rfl

/-- C4 counterexample: with inverted order and exactly one non-empty value (the
first name), `focusDefault` focuses the first-name field, which is the
non-empty one — not the empty field as the claim states. -/
theorem C4_counterexample :
    isEmptyQ (getValue "John") = false ∧ isEmptyQ (getValue "") = true ∧
    focusTarget true "John" "" = NameField.first := by
  decide

/-- C4 (amended): `focusDefault` focuses the first-in-visual-order field when
both values are empty after normalization and trimming, and the
second-in-visual-order field otherwise; it is a pure function of the two
values and the inversion flag, hence deterministic. -/
theorem C4_focus_characterization (inverted : Bool) (firstText lastText : String) :
    focusTarget inverted firstText lastText =
      (if isEmptyQ (getValue firstText) && isEmptyQ (getValue lastText) then
        visuallyFirst inverted
      else
        visuallySecond inverted) := by
  cases inverted <;>
    cases he : isEmptyQ (getValue firstText) && isEmptyQ (getValue lastText) <;>
      simp [focusTarget, visuallyFirst, visuallySecond, he]

/-- C5: on a successful response, the toast list carries exactly the submitted
first name when the user was not a contact at send time, and is empty when the
user already was a contact. -/
theorem C5_toast_iff_new_contact (u : UserData) (boxAlive : Bool) (first last : String) :
    (handleResponse u boxAlive first last Response.success).toasts
      = (if u.isContact then [] else [first]) :=
  rfl

/-- C6: every request the save action issues carries the
add-phone-privacy-exception flag iff the share-phone checkbox exists and is
checked; with no checkbox (`sharePhone = none`) the flag is absent. -/
theorem C6_privacy_exception_flag (st : FormState) (r : AddContactRequest)
    (h : r ∈ (save st).requests) :
    (r.addPhonePrivacyException = true ↔ st.sharePhone = some true) := by
  cases he : isEmptyQ (getValue st.firstText) && isEmptyQ (getValue st.lastText) with
  | true => simp [save, he] at h
  | false =>
    simp [save, he] at h
    subst h
    cases hs : st.sharePhone with
    | none => simp [buildRequest, hs]
    | some checked => cases checked <;> simp [buildRequest, hs]

/-- C6 witness: the theorem applied to the concrete state with a checked
share-phone checkbox. -/
theorem C6_witness :
    ((buildRequest stAnn (getValue stAnn.firstText) (getValue stAnn.lastText)).addPhonePrivacyException
        = true ↔ stAnn.sharePhone = some true) :=
  C6_privacy_exception_flag stAnn
    (buildRequest stAnn (getValue stAnn.firstText) (getValue stAnn.lastText)) (by decide)

/-- C7: the share-phone checkbox is added iff the contact's settings exist and
contain the need-contacts-exception flag, and likewise the explanatory label;
so when the condition fails, neither widget is added. -/
theorem C7_checkbox_iff_exception_flag (u : UserData) :
    ((setupSharePhoneNumber u).checkboxAdded = true
      ↔ ∃ s, u.settings = some s ∧ s &&& f_need_contacts_exception ≠ 0)
    ∧ ((setupSharePhoneNumber u).labelAdded = true
      ↔ ∃ s, u.settings = some s ∧ s &&& f_need_contacts_exception ≠ 0) := by
  cases hs : u.settings with
  | none => simp [setupSharePhoneNumber, hs]
  | some s =>
    by_cases hb : s &&& f_need_contacts_exception = 0 <;>
      simp [setupSharePhoneNumber, hs, hb]

/-- C7 witness: for a contact whose settings bitmask 23 has bit 4 set, both
widgets are added. -/
theorem C7_witness :
    (setupSharePhoneNumber uAnn).checkboxAdded = true
      ∧ (setupSharePhoneNumber uAnn).labelAdded = true :=
  ⟨(C7_checkbox_iff_exception_flag uAnn).1.mpr ⟨23, rfl, by decide⟩,
   (C7_checkbox_iff_exception_flag uAnn).2.mpr ⟨23, rfl, by decide⟩⟩

/-- C8: when the box was dismissed before the response arrived (the weak
reference is dead, `boxAlive = false`), the success handler does not close
the box, whatever the contact, names, or other state. -/
theorem C8_no_close_after_dismissal (u : UserData) (first last : String) :
    (handleResponse u false first last Response.success).closedBox = false :=
  rfl

/-- C9: the failure handler is a no-op: the contact record is unchanged, no
updates are applied, no toast is shown, and the box is not closed. -/
theorem C9_failure_is_noop (u : UserData) (boxAlive : Bool) (first last : String) :
    (handleResponse u boxAlive first last Response.failure).user = u
      ∧ (handleResponse u boxAlive first last Response.failure).appliedUpdates = false
      ∧ (handleResponse u boxAlive first last Response.failure).closedBox = false
      ∧ (handleResponse u boxAlive first last Response.failure).toasts = [] :=
  ⟨rfl, rfl, rfl, rfl⟩

/-- C10: on success the settings become the old settings with exactly
`clearedFlags` removed (`none` stays `none`); bit-level: bit `i` of the new
mask is the old bit with the `clearedFlags` bits masked out, `clearedFlags`
occupies exactly bits 0,1,2, which are the bits of `f_report_spam`,
`f_add_contact` and `f_block_contact`, while `f_need_contacts_exception`
sits at bit 4, outside `clearedFlags`; and the name update passes the old
`nameOrPhone` and `username` through unchanged. -/
theorem C10_success_settings_frame (u : UserData) (boxAlive : Bool) (first last : String) :
    (handleResponse u boxAlive first last Response.success).user.settings
      = Option.map (fun s => Nat.ldiff s clearedFlags) u.settings
    ∧ (∀ s i, (Nat.ldiff s clearedFlags).testBit i
        = (s.testBit i && !(clearedFlags.testBit i)))
    ∧ (∀ i, clearedFlags.testBit i = (decide (i = 0) || decide (i = 1) || decide (i = 2)))
    ∧ f_report_spam.testBit 0 = true
    ∧ f_add_contact.testBit 1 = true
    ∧ f_block_contact.testBit 2 = true
    ∧ f_need_contacts_exception.testBit 4 = true
    ∧ clearedFlags.testBit 4 = false
    ∧ (handleResponse u boxAlive first last Response.success).user.nameOrPhone = u.nameOrPhone
    ∧ (handleResponse u boxAlive first last Response.success).user.username = u.username := by
  obtain ⟨h1, h9, h10⟩ :
      (handleResponse u boxAlive first last Response.success).user.settings
        = Option.map (fun s => Nat.ldiff s clearedFlags) u.settings
      ∧ (handleResponse u boxAlive first last Response.success).user.nameOrPhone
        = u.nameOrPhone
      ∧ (handleResponse u boxAlive first last Response.success).user.username
        = u.username := by
    cases hs : u.settings <;> simp [handleResponse, setName, hs]
  refine ⟨h1, ?_, ?_, by decide, by decide, by decide, by decide, by decide, h9, h10⟩
  · intro s i
    exact Nat.testBit_ldiff s clearedFlags i
  · intro i
    rcases i with _ | _ | _ | i
    · decide
    · decide
    · decide
    · have h8 : clearedFlags < 2 ^ (i + 3) := by
        have hpow : (8 : Nat) ≤ 2 ^ (i + 3) := by
          calc (8 : Nat) = 2 ^ 3 := by norm_num
            _ ≤ 2 ^ (i + 3) := Nat.pow_le_pow_right (by norm_num) (by omega)
        have hc : clearedFlags = 7 := by decide
        omega
      simp [Nat.testBit_eq_false_of_lt h8]

end EditContact
